import Mathlib

/-!
Shallow embedding of `src/end-of-chapter-projects/empty-game/src/main.rs`
(the single source file of the amethyst-3d-tutorial repository).

The file is the entry point of an Amethyst game: it starts the logger,
resolves the application root directory, builds a `DisplayConfig`, wires a
`RenderingBundle` with two plugins (`RenderToWindow`, `RenderShaded3D`),
builds the `GameDataBuilder`, constructs the `Application` and runs it.

The engine (the `amethyst` crate) is an external dependency, so its types
are modelled here just deeply enough to state the claims: `main` is embedded
as a function of an environment that decides the outcome of each fallible
engine call, and it returns the ordered event trace of its engine calls
together with its `Result` value.
-/

namespace EmptyGame

/-- Error value of the engine's `amethyst::Error` type (modelled abstractly
as a message string; the entry point never inspects it). -/
abbrev Err := String

/-- Result type mirroring Rust's `Result` (used instead of `Except` so that
equality can be derived). -/
inductive RResult (ε α : Type) where
  | ok (a : α)
  | err (e : ε)
deriving DecidableEq, Repr

/-- File-system path, modelled as its list of components
(Rust's `PathBuf`). -/
structure Path where
  components : List String
deriving DecidableEq, Repr

/-- Rust's `PathBuf::join` with a single component. -/
def Path.join (p : Path) (s : String) : Path :=
  ⟨p.components ++ [s]⟩

/-- The `amethyst::window::DisplayConfig` struct (external engine type).
Fields are those of the engine's struct; `fullscreen` (a monitor identifier)
and `icon` are modelled by their carrier data. -/
structure DisplayConfig where
  title : String
  fullscreen : Option String
  dimensions : Option (Nat × Nat)
  min_dimensions : Option (Nat × Nat)
  max_dimensions : Option (Nat × Nat)
  visibility : Bool
  icon : Option Path
  always_on_top : Bool
  decorations : Bool
  maximized : Bool
  multitouch : Bool
  resizable : Bool
  transparent : Bool
deriving DecidableEq, Repr

/-- The engine's `Default` impl for `DisplayConfig` (external engine code:
`impl Default for DisplayConfig` in `amethyst_window`). -/
def DisplayConfig.default : DisplayConfig :=
  { title := "amethyst game"
    fullscreen := none
    dimensions := none
    min_dimensions := none
    max_dimensions := none
    visibility := true
    icon := none
    always_on_top := false
    decorations := true
    maximized := false
    multitouch := true
    resizable := true
    transparent := false }

/-- The `RenderToWindow` render plugin (engine type): holds the display
configuration it was built from and an optional clear color. The four
clear-color channels are `f32` literals in the source, embedded as exact
rationals. -/
structure RenderToWindow where
  config : DisplayConfig
  clear : Option (List ℚ)
deriving DecidableEq, Repr

/-- `RenderToWindow::from_config` (engine constructor): wraps a display
configuration, with no clear color yet. -/
def RenderToWindow.from_config (c : DisplayConfig) : RenderToWindow :=
  ⟨c, none⟩

/-- `RenderToWindow::with_clear` (engine builder method). -/
def RenderToWindow.with_clear (r : RenderToWindow) (c : List ℚ) : RenderToWindow :=
  { r with clear := some c }

/-- The `RenderShaded3D` render plugin (engine type, no configuration
observable from this repository). -/
structure RenderShaded3D where
deriving DecidableEq, Repr

/-- `RenderShaded3D::default()`. -/
def RenderShaded3D.default : RenderShaded3D := ⟨⟩

/-- A render plugin added to the rendering bundle. -/
inductive RenderPlugin where
  | renderToWindow (r : RenderToWindow)
  | renderShaded3D (s : RenderShaded3D)
deriving DecidableEq, Repr

/-- The `RenderingBundle::<DefaultBackend>` (engine type): an ordered list
of render plugins. -/
structure RenderingBundle where
  plugins : List RenderPlugin
deriving DecidableEq, Repr

/-- `RenderingBundle::new()`. -/
def RenderingBundle.new : RenderingBundle := ⟨[]⟩

/-- `RenderingBundle::with_plugin`: appends a plugin. -/
def RenderingBundle.with_plugin (b : RenderingBundle) (p : RenderPlugin) : RenderingBundle :=
  ⟨b.plugins ++ [p]⟩

/-- The `GameDataBuilder` (engine type): the ordered list of bundles
registered with it. -/
structure GameDataBuilder where
  bundles : List RenderingBundle
deriving DecidableEq, Repr

/-- `GameDataBuilder::default()`. -/
def GameDataBuilder.default : GameDataBuilder := ⟨[]⟩

/-- `GameDataBuilder::with_bundle` (success case; its fallibility is decided
by the environment in `main`). -/
def GameDataBuilder.with_bundle (g : GameDataBuilder) (b : RenderingBundle) : GameDataBuilder :=
  ⟨g.bundles ++ [b]⟩

/-- `struct GameState;` — the repository's unit struct: no fields. -/
structure GameState where
deriving DecidableEq, Repr

/-- State transition requested by a `SimpleState` callback (the engine's
`SimpleTrans`; `push` and `switch` carry a boxed successor state in the
engine, elided here since no caller in this repository builds one). -/
inductive SimpleTrans where
  | none
  | pop
  | push
  | switch
  | quit
deriving DecidableEq, Repr

/-- Method table of the engine's `SimpleState` trait: the lifecycle
callbacks an implementor may override. -/
structure SimpleStateImpl (S : Type) where
  on_start : S → S
  on_stop : S → S
  on_pause : S → S
  on_resume : S → S
  update : S → S × SimpleTrans
  fixed_update : S → S × SimpleTrans

/-- The trait's default methods: every callback is a no-op and every update
requests no transition (engine code: default bodies of `SimpleState`). -/
def SimpleStateImpl.defaultImpl (S : Type) : SimpleStateImpl S :=
  { on_start := id
    on_stop := id
    on_pause := id
    on_resume := id
    update := fun s => (s, SimpleTrans.none)
    fixed_update := fun s => (s, SimpleTrans.none) }

/-- `impl SimpleState for GameState {}` — the empty impl block: every
method is the trait default. -/
def gameStateImpl : SimpleStateImpl GameState :=
  SimpleStateImpl.defaultImpl GameState

/-- Observable events of `main`, in the order the Rust code performs them.
Each fallible engine call records its outcome. -/
inductive Event where
  | startLogger
  | appRootCall (r : RResult Err Path)
  | computeAssetsDir (p : Path)
  | constructDisplayConfig (c : DisplayConfig)
  | gameDataBuilderDefault
  | renderingBundleNew
  | fromConfig (c : DisplayConfig)
  | withClear (c : List ℚ)
  | withPlugin (p : RenderPlugin)
  | withBundleCall (b : RenderingBundle) (r : RResult Err Unit)
  | createGameState
  | appNewCall (assets : Path) (r : RResult Err Unit)
  | run
deriving DecidableEq, Repr

/-- Environment of one execution: the outcome of each fallible engine call
(`application_root_dir`, `with_bundle`, `Application::new`). Everything
else in `main` is infallible. -/
structure Env where
  appRoot : RResult Err Path
  withBundleErr : Option Err
  appNewErr : Option Err

/-- The embedding of `fn main() -> amethyst::Result<()>`: returns the
ordered trace of engine calls and the function's result, following the
source line by line (logger, root dir, assets dir, display config, game
data builder with the rendering bundle, application construction, run). -/
def main (env : Env) : List Event × RResult Err Unit :=
  let ev1 := [Event.startLogger]
  match env.appRoot with
  | .err e => (ev1 ++ [Event.appRootCall (.err e)], .err e)
  | .ok app_root =>
    let ev2 := ev1 ++ [Event.appRootCall (.ok app_root)]
    let assets_dir := app_root.join "assets"
    let ev3 := ev2 ++ [Event.computeAssetsDir assets_dir]
    let display_config : DisplayConfig :=
      { DisplayConfig.default with
          title := "Cubefield"
          dimensions := some (1024, 768) }
    let ev4 := ev3 ++ [Event.constructDisplayConfig display_config]
    let builder := GameDataBuilder.default
    let ev5 := ev4 ++ [Event.gameDataBuilderDefault]
    let bundle0 := RenderingBundle.new
    let ev6 := ev5 ++ [Event.renderingBundleNew]
    let rtw0 := RenderToWindow.from_config display_config
    let ev7 := ev6 ++ [Event.fromConfig display_config]
    let rtw := rtw0.with_clear [0.95, 0.95, 0.95, 1.0]
    let ev8 := ev7 ++ [Event.withClear [0.95, 0.95, 0.95, 1.0]]
    let bundle1 := bundle0.with_plugin (RenderPlugin.renderToWindow rtw)
    let ev9 := ev8 ++ [Event.withPlugin (RenderPlugin.renderToWindow rtw)]
    let bundle2 := bundle1.with_plugin (RenderPlugin.renderShaded3D RenderShaded3D.default)
    let ev10 := ev9 ++ [Event.withPlugin (RenderPlugin.renderShaded3D RenderShaded3D.default)]
    match env.withBundleErr with
    | some e => (ev10 ++ [Event.withBundleCall bundle2 (.err e)], .err e)
    | none =>
      let _game_data := builder.with_bundle bundle2
      let ev11 := ev10 ++ [Event.withBundleCall bundle2 (.ok ())]
      let ev12 := ev11 ++ [Event.createGameState]
      match env.appNewErr with
      | some e => (ev12 ++ [Event.appNewCall assets_dir (.err e)], .err e)
      | none =>
        let ev13 := ev12 ++ [Event.appNewCall assets_dir (.ok ())]
        (ev13 ++ [Event.run], .ok ())

/-- Modelled from the spec: Rust maps a `main` returning `Err` to a
non-zero process exit status ("terminating the process with a non-zero
status"), and `Ok` to status 0. -/
def exitCode : RResult Err Unit → Nat
  | .ok _ => 0
  | .err _ => 1

/-- Recognizes the assets-directory computation event. -/
def Event.isComputeAssets : Event → Bool
  | .computeAssetsDir _ => true
  | _ => false

/-- Recognizes the display-configuration construction event. -/
def Event.isConstructDisplayConfig : Event → Bool
  | .constructDisplayConfig _ => true
  | _ => false

/-- Recognizes the `RenderToWindow::from_config` event (the consumption of
the display configuration). -/
def Event.isFromConfig : Event → Bool
  | .fromConfig _ => true
  | _ => false

/-- Recognizes a `with_plugin` call. -/
def Event.isWithPlugin : Event → Bool
  | .withPlugin _ => true
  | _ => false

/-- Recognizes a `with_bundle` call. -/
def Event.isWithBundle : Event → Bool
  | .withBundleCall _ _ => true
  | _ => false

/-- Recognizes the creation of the `GameState` value. -/
def Event.isCreateGameState : Event → Bool
  | .createGameState => true
  | _ => false

/-- The display-configuration literal of `main`: title "Cubefield",
dimensions 1024×768, all other fields from `DisplayConfig.default`. -/
def cubefieldConfig : DisplayConfig :=
  { DisplayConfig.default with
      title := "Cubefield"
      dimensions := some (1024, 768) }

/-- The window-target renderer of `main`: built from the display
configuration, with the clear color `[0.95, 0.95, 0.95, 1.0]`. -/
def cubefieldRtw : RenderToWindow :=
  (RenderToWindow.from_config cubefieldConfig).with_clear [0.95, 0.95, 0.95, 1.0]

/-- The rendering bundle of `main`: the window-target renderer followed by
the shaded-3D plugin. -/
def cubefieldBundle : RenderingBundle :=
  (RenderingBundle.new.with_plugin
      (RenderPlugin.renderToWindow cubefieldRtw)).with_plugin
    (RenderPlugin.renderShaded3D RenderShaded3D.default)

/-- The event trace of every successful execution with root directory `r`. -/
def successTrace (r : Path) : List Event :=
  [Event.startLogger,
   Event.appRootCall (RResult.ok r),
   Event.computeAssetsDir (r.join "assets"),
   Event.constructDisplayConfig cubefieldConfig,
   Event.gameDataBuilderDefault,
   Event.renderingBundleNew,
   Event.fromConfig cubefieldConfig,
   Event.withClear [0.95, 0.95, 0.95, 1.0],
   Event.withPlugin (RenderPlugin.renderToWindow cubefieldRtw),
   Event.withPlugin (RenderPlugin.renderShaded3D RenderShaded3D.default),
   Event.withBundleCall cubefieldBundle (RResult.ok ()),
   Event.createGameState,
   Event.appNewCall (r.join "assets") (RResult.ok ()),
   Event.run]

/-- A concrete environment in which every engine call succeeds. -/
def env0 : Env :=
  ⟨RResult.ok ⟨["game"]⟩, none, none⟩

/-- A concrete environment in which `application_root_dir` fails. -/
def envRootErr : Env :=
  ⟨RResult.err "no root", none, none⟩

/-- A concrete environment in which `with_bundle` fails. -/
def envBundleErr : Env :=
  ⟨RResult.ok ⟨["game"]⟩, some "bundle failed", none⟩

/-- A concrete environment in which `Application::new` fails. -/
def envAppErr : Env :=
  ⟨RResult.ok ⟨["game"]⟩, none, some "app failed"⟩

/-- C1: every display configuration constructed by `main` has title exactly
"Cubefield" and dimensions exactly `some (1024, 768)`. -/
theorem main_displayConfig_title_dimensions (env : Env) (c : DisplayConfig)
    (h : Event.constructDisplayConfig c ∈ (main env).1) :
    c.title = "Cubefield" ∧ c.dimensions = some (1024, 768) := by
  rcases env with ⟨ar, wb, an⟩
  cases ar <;> cases wb <;> cases an <;> simp [main] at h <;>
    subst h <;> exact ⟨rfl, rfl⟩

/-- Witness for C1: in the all-success environment a display configuration
is constructed, and it has the required title and dimensions. -/
theorem main_displayConfig_title_dimensions_witness :
    cubefieldConfig.title = "Cubefield" ∧
    cubefieldConfig.dimensions = some (1024, 768) :=
  main_displayConfig_title_dimensions env0 cubefieldConfig
    (by simp [main, env0, cubefieldConfig])

/-- C2: every clear color passed to `with_clear` by `main` is exactly
`[0.95, 0.95, 0.95, 1.0]` (RGBA order), each channel within 0–1. -/
theorem main_clear_color (env : Env) (c : List ℚ)
    (h : Event.withClear c ∈ (main env).1) :
    c = [0.95, 0.95, 0.95, 1.0] ∧ ∀ q ∈ c, 0 ≤ q ∧ q ≤ 1 := by
  rcases env with ⟨ar, wb, an⟩
  cases ar <;> cases wb <;> cases an <;> simp [main] at h <;>
    subst h <;>
    refine ⟨rfl, ?_⟩ <;>
    intro q hq <;>
    simp only [List.mem_cons, List.not_mem_nil, or_false] at hq <;>
    rcases hq with rfl | rfl | rfl | rfl <;> norm_num

/-- Witness for C2: in the all-success environment a clear color is passed,
and it equals the literal with all channels in range. -/
theorem main_clear_color_witness :
    ([(0.95 : ℚ), 0.95, 0.95, 1.0] = [0.95, 0.95, 0.95, 1.0]) ∧
    ∀ q ∈ [(0.95 : ℚ), 0.95, 0.95, 1.0], 0 ≤ q ∧ q ≤ 1 :=
  main_clear_color env0 [0.95, 0.95, 0.95, 1.0] (by simp [main, env0])

/-- C3: whenever `application_root_dir` returns `r`, the assets directory
is computed exactly once, equals `r.join "assets"`, and every
`Application::new` call receives exactly that path as its assets
argument. -/
theorem main_assets_dir (env : Env) (r : Path)
    (h : env.appRoot = RResult.ok r) :
    (main env).1.filter Event.isComputeAssets
      = [Event.computeAssetsDir (r.join "assets")] ∧
    ∀ p res, Event.appNewCall p res ∈ (main env).1 → p = r.join "assets" := by
  rcases env with ⟨ar, wb, an⟩
  simp only at h
  subst h
  cases wb <;> cases an <;>
    constructor <;>
    simp [main, Event.isComputeAssets]

/-- Witness for C3: in the all-success environment the assets directory is
the root joined with "assets" and is the argument of `Application::new`. -/
theorem main_assets_dir_witness :
    (main env0).1.filter Event.isComputeAssets
      = [Event.computeAssetsDir ((⟨["game"]⟩ : Path).join "assets")] ∧
    ∀ p res, Event.appNewCall p res ∈ (main env0).1 →
      p = (⟨["game"]⟩ : Path).join "assets" :=
  main_assets_dir env0 ⟨["game"]⟩ rfl

/-- C4: whichever engine constructor fails first, `main` returns that very
error value, the process exit status is non-zero, and no later constructor
call happens (after a root failure the trace stops at the root call; after
a `with_bundle` failure no `Application::new` and no run; after an
`Application::new` failure no run). -/
theorem main_first_failure (env : Env) (e : Err) :
    (env.appRoot = RResult.err e →
       (main env).1 = [Event.startLogger, Event.appRootCall (RResult.err e)] ∧
       (main env).2 = RResult.err e ∧ exitCode (main env).2 ≠ 0) ∧
    (∀ r, env.appRoot = RResult.ok r → env.withBundleErr = some e →
       (main env).2 = RResult.err e ∧ exitCode (main env).2 ≠ 0 ∧
       (∀ p res, Event.appNewCall p res ∉ (main env).1) ∧
       Event.run ∉ (main env).1) ∧
    (∀ r, env.appRoot = RResult.ok r → env.withBundleErr = none →
       env.appNewErr = some e →
       (main env).2 = RResult.err e ∧ exitCode (main env).2 ≠ 0 ∧
       Event.run ∉ (main env).1) := by
  rcases env with ⟨ar, wb, an⟩
  refine ⟨?_, ?_, ?_⟩
  · intro h
    simp only at h
    subst h
    simp [main, exitCode]
  · intro r h1 h2
    simp only at h1 h2
    subst h1
    subst h2
    simp [main, exitCode]
  · intro r h1 h2 h3
    simp only at h1 h2 h3
    subst h1
    subst h2
    subst h3
    simp [main, exitCode]

/-- Witness for C4: the three failure environments, each at its concrete
error, yield the claimed result, exit status and truncated trace. -/
theorem main_first_failure_witness :
    ((main envRootErr).1
        = [Event.startLogger, Event.appRootCall (RResult.err "no root")] ∧
      (main envRootErr).2 = RResult.err "no root" ∧
      exitCode (main envRootErr).2 ≠ 0) ∧
    ((main envBundleErr).2 = RResult.err "bundle failed" ∧
      exitCode (main envBundleErr).2 ≠ 0 ∧
      (∀ p res, Event.appNewCall p res ∉ (main envBundleErr).1) ∧
      Event.run ∉ (main envBundleErr).1) ∧
    ((main envAppErr).2 = RResult.err "app failed" ∧
      exitCode (main envAppErr).2 ≠ 0 ∧
      Event.run ∉ (main envAppErr).1) :=
  ⟨(main_first_failure envRootErr "no root").1 rfl,
   (main_first_failure envBundleErr "bundle failed").2.1 ⟨["game"]⟩ rfl rfl,
   (main_first_failure envAppErr "app failed").2.2 ⟨["game"]⟩ rfl rfl rfl⟩

/-- C5: when the application root directory cannot be resolved, `main`
returns that error, and no display configuration, no rendering bundle
registration and no application construction takes place. -/
theorem main_root_failure (env : Env) (e : Err)
    (h : env.appRoot = RResult.err e) :
    (main env).2 = RResult.err e ∧
    (∀ c, Event.constructDisplayConfig c ∉ (main env).1) ∧
    (∀ b res, Event.withBundleCall b res ∉ (main env).1) ∧
    (∀ p res, Event.appNewCall p res ∉ (main env).1) := by
  rcases env with ⟨ar, wb, an⟩
  simp only at h
  subst h
  simp [main]

/-- Witness for C5: the concrete root-failure environment surfaces its
error and constructs nothing. -/
theorem main_root_failure_witness :
    (main envRootErr).2 = RResult.err "no root" ∧
    (∀ c, Event.constructDisplayConfig c ∉ (main envRootErr).1) ∧
    (∀ b res, Event.withBundleCall b res ∉ (main envRootErr).1) ∧
    (∀ p res, Event.appNewCall p res ∉ (main envRootErr).1) :=
  main_root_failure envRootErr "no root" rfl

/-- C6: once the root directory resolves, the display configuration is
constructed exactly once (with the literal title and dimensions over the
engine defaults), consumed exactly once by `RenderToWindow::from_config`
with the identical unmutated value, and all its fields other than title and
dimensions equal the corresponding field of `DisplayConfig.default`. -/
theorem main_displayConfig_defaults_once (env : Env) (r : Path)
    (h : env.appRoot = RResult.ok r) :
    (main env).1.filter Event.isConstructDisplayConfig
      = [Event.constructDisplayConfig cubefieldConfig] ∧
    (main env).1.filter Event.isFromConfig
      = [Event.fromConfig cubefieldConfig] ∧
    cubefieldConfig.fullscreen = DisplayConfig.default.fullscreen ∧
    cubefieldConfig.min_dimensions = DisplayConfig.default.min_dimensions ∧
    cubefieldConfig.max_dimensions = DisplayConfig.default.max_dimensions ∧
    cubefieldConfig.visibility = DisplayConfig.default.visibility ∧
    cubefieldConfig.icon = DisplayConfig.default.icon ∧
    cubefieldConfig.always_on_top = DisplayConfig.default.always_on_top ∧
    cubefieldConfig.decorations = DisplayConfig.default.decorations ∧
    cubefieldConfig.maximized = DisplayConfig.default.maximized ∧
    cubefieldConfig.multitouch = DisplayConfig.default.multitouch ∧
    cubefieldConfig.resizable = DisplayConfig.default.resizable ∧
    cubefieldConfig.transparent = DisplayConfig.default.transparent := by
  rcases env with ⟨ar, wb, an⟩
  simp only at h
  subst h
  cases wb <;> cases an <;>
    simp [main, Event.isConstructDisplayConfig, Event.isFromConfig,
      cubefieldConfig]

/-- Witness for C6: in the all-success environment the construction and the
consumption events each occur exactly once with the same value. -/
theorem main_displayConfig_defaults_once_witness :
    (main env0).1.filter Event.isConstructDisplayConfig
      = [Event.constructDisplayConfig cubefieldConfig] ∧
    (main env0).1.filter Event.isFromConfig
      = [Event.fromConfig cubefieldConfig] ∧
    cubefieldConfig.fullscreen = DisplayConfig.default.fullscreen ∧
    cubefieldConfig.min_dimensions = DisplayConfig.default.min_dimensions ∧
    cubefieldConfig.max_dimensions = DisplayConfig.default.max_dimensions ∧
    cubefieldConfig.visibility = DisplayConfig.default.visibility ∧
    cubefieldConfig.icon = DisplayConfig.default.icon ∧
    cubefieldConfig.always_on_top = DisplayConfig.default.always_on_top ∧
    cubefieldConfig.decorations = DisplayConfig.default.decorations ∧
    cubefieldConfig.maximized = DisplayConfig.default.maximized ∧
    cubefieldConfig.multitouch = DisplayConfig.default.multitouch ∧
    cubefieldConfig.resizable = DisplayConfig.default.resizable ∧
    cubefieldConfig.transparent = DisplayConfig.default.transparent :=
  main_displayConfig_defaults_once env0 ⟨["game"]⟩ rfl

/-- C7: `main` registers at most one bundle, adds at most two plugins, and
the bundle it registers holds exactly the window-target renderer (built
from the display configuration, with the clear color) followed by the
default shaded-3D plugin. -/
theorem main_bundle_two_plugins (env : Env) :
    ((main env).1.filter Event.isWithBundle).length ≤ 1 ∧
    ((main env).1.filter Event.isWithPlugin).length ≤ 2 ∧
    ∀ b res, Event.withBundleCall b res ∈ (main env).1 →
      b.plugins = [RenderPlugin.renderToWindow cubefieldRtw,
                   RenderPlugin.renderShaded3D RenderShaded3D.default] := by
  rcases env with ⟨ar, wb, an⟩
  cases ar <;> cases wb <;> cases an <;>
    refine ⟨?_, ?_, ?_⟩ <;>
    simp [main, Event.isWithBundle, Event.isWithPlugin,
      RenderingBundle.new, RenderingBundle.with_plugin,
      cubefieldRtw, cubefieldConfig,
      RenderToWindow.from_config, RenderToWindow.with_clear]

/-- Witness for C7: in the all-success environment the bundle registered
with `with_bundle` has exactly the two plugins in order. -/
theorem main_bundle_two_plugins_witness :
    cubefieldBundle.plugins
      = [RenderPlugin.renderToWindow cubefieldRtw,
         RenderPlugin.renderShaded3D RenderShaded3D.default] :=
  (main_bundle_two_plugins env0).2.2 cubefieldBundle (RResult.ok ())
    (by simp [main, env0, cubefieldBundle, cubefieldRtw, cubefieldConfig,
      RenderingBundle.new, RenderingBundle.with_plugin,
      RenderToWindow.from_config, RenderToWindow.with_clear])

/-- C8: every successful execution of `main` performs exactly the startup
sequence of the source, in order: logger, root resolution, assets dir,
display configuration, game-data builder, rendering bundle and its two
plugins, bundle registration, game-state creation, application
construction, run. -/
theorem main_success_order (env : Env)
    (h : (main env).2 = RResult.ok ()) :
    ∃ r, env.appRoot = RResult.ok r ∧ (main env).1 = successTrace r := by
  rcases env with ⟨ar, wb, an⟩
  cases ar with
  | err e => simp [main] at h
  | ok r =>
    cases wb with
    | some e => simp [main] at h
    | none =>
      cases an with
      | some e => simp [main] at h
      | none =>
        refine ⟨r, rfl, ?_⟩
        simp [main, successTrace, cubefieldConfig, cubefieldRtw,
          cubefieldBundle, RenderingBundle.new, RenderingBundle.with_plugin,
          RenderToWindow.from_config, RenderToWindow.with_clear]

/-- Witness for C8: the all-success environment succeeds and its trace is
exactly the startup sequence. -/
theorem main_success_order_witness :
    ∃ r, env0.appRoot = RResult.ok r ∧ (main env0).1 = successTrace r :=
  main_success_order env0 (by simp [main, env0])

/-- C9: `GameState` is a fieldless marker (all its values are equal), its
`SimpleState` impl is exactly the trait's default method table — so every
lifecycle callback is a no-op and every update requests no state
transition — and `main` creates the state at most once, exactly once in
every successful execution. -/
theorem gameState_marker_no_behavior :
    gameStateImpl = SimpleStateImpl.defaultImpl GameState ∧
    (∀ s : GameState,
       gameStateImpl.update s = (s, SimpleTrans.none) ∧
       gameStateImpl.fixed_update s = (s, SimpleTrans.none) ∧
       gameStateImpl.on_start s = s ∧
       gameStateImpl.on_stop s = s ∧
       gameStateImpl.on_pause s = s ∧
       gameStateImpl.on_resume s = s) ∧
    (∀ a b : GameState, a = b) ∧
    (∀ env : Env,
       ((main env).1.filter Event.isCreateGameState).length ≤ 1) ∧
    (∀ env : Env, (main env).2 = RResult.ok () →
       ((main env).1.filter Event.isCreateGameState).length = 1) := by
  refine ⟨rfl, fun s => ⟨rfl, rfl, rfl, rfl, rfl, rfl⟩,
    fun a b => rfl, ?_, ?_⟩
  · intro env
    rcases env with ⟨ar, wb, an⟩
    cases ar <;> cases wb <;> cases an <;>
      simp [main, Event.isCreateGameState]
  · intro env h
    rcases env with ⟨ar, wb, an⟩
    cases ar <;> cases wb <;> cases an <;>
      simp_all [main, Event.isCreateGameState]

/-- Witness for C9: in the all-success environment the game state is
created exactly once. -/
theorem gameState_marker_no_behavior_witness :
    ((main env0).1.filter Event.isCreateGameState).length = 1 :=
  gameState_marker_no_behavior.2.2.2.2 env0 (by simp [main, env0])

/-- C10: in every execution, the very first event of `main` is the logger
initialization — it precedes `application_root_dir` and every other
(fallible) engine call. -/
theorem main_logger_first (env : Env) :
    (main env).1.head? = some Event.startLogger := by
  rcases env with ⟨ar, wb, an⟩
  cases ar <;> cases wb <;> cases an <;> simp [main]

end EmptyGame
